import Mathlib

/-!
Verification of the GB Electricity Market Dashboard backend proxy (`app.py`).

The development shallowly embeds the cache subsystem, the settlement clock,
the fuel-mix / summary derivations and the route error handling of the source
file into Lean.  Python floats are modelled as rationals; Python `round`
(banker's rounding) is modelled by `pyRound`; Python dicts are modelled as
insertion-ordered association lists (`lookupStr`, `pyUpsert`); ISO-formatted
UTC timestamps are represented by the underlying epoch instant (`JVal.jtime`).
-/

set_option allowUnsafeReducibility true in
attribute [semireducible] Rat.add Rat.sub Rat.mul Rat.inv Rat.ofScientific

namespace App

/-- The floor of a rational, in computable form. -/
def pyFloor (q : ℚ) : ℤ := Rat.floor q

/-- Python `round(x)` to an integer: round half to even (banker's rounding). -/
def pyRound (q : ℚ) : ℤ :=
  let f := pyFloor q
  let r := q - f
  if r < 1/2 then f
  else if 1/2 < r then f + 1
  else if f % 2 = 0 then f else f + 1

/-- Python `int(x)` on a float: truncation toward zero. -/
def pyTrunc (q : ℚ) : ℤ :=
  if q < 0 then -pyFloor (-q) else pyFloor q

/-- Python `round(x, 1)`: round to one decimal digit, half to even. -/
def round1 (q : ℚ) : ℚ := (pyRound (q * 10) : ℚ) / 10

/-- Python `round(x, 2)`: round to two decimal digits, half to even. -/
def round2 (q : ℚ) : ℚ := (pyRound (q * 100) : ℚ) / 100

/-- Python `round(x, 3)`: round to three decimal digits, half to even. -/
def round3 (q : ℚ) : ℚ := (pyRound (q * 1000) : ℚ) / 1000

/-- First-match lookup in an association list: Python `dict[k]` / `dict.get(k)`
(a Python dict has at most one entry per key; lists produced by `pyUpsert`
keep keys unique, matching dict semantics). -/
def lookupStr {α : Type} : List (String × α) → String → Option α
  | [], _ => none
  | (k, v) :: rest, key => if k = key then some v else lookupStr rest key

/-- Python dict assignment `d[k] = v` (also `{**d, k: v}`): replace the value
in place if the key is present, keeping the key's original position, else
append the binding at the end. -/
def pyUpsert {α : Type} : List (String × α) → String → α → List (String × α)
  | [], key, v => [(key, v)]
  | (k, w) :: rest, key, v =>
    if k = key then (k, v) :: rest else (k, w) :: pyUpsert rest key v

/-- JSON-like values as produced by the backend.  `jtime t` stands for the
ISO-8601 rendering of the UTC instant `t` seconds after the epoch
(`datetime.fromtimestamp(t, tz=timezone.utc).isoformat()`). -/
inductive JVal : Type where
  | jnull : JVal
  | jbool : Bool → JVal
  | jnum : ℚ → JVal
  | jstr : String → JVal
  | jtime : ℚ → JVal
  | jarr : List JVal → JVal
  | jobj : List (String × JVal) → JVal

/-- A JSON object body: an insertion-ordered association list. -/
abbrev Obj : Type := List (String × JVal)

/-- Project a numeric field out of an object. -/
def getNum (o : Obj) (k : String) : Option ℚ :=
  match lookupStr o k with
  | some (JVal.jnum q) => some q
  | _ => none

/-- Project a string field out of an object. -/
def getStr (o : Obj) (k : String) : Option String :=
  match lookupStr o k with
  | some (JVal.jstr s) => some s
  | _ => none

/-- Project an object-valued field out of an object. -/
def getObj (o : Obj) (k : String) : Option Obj :=
  match lookupStr o k with
  | some (JVal.jobj o') => some o'
  | _ => none

/-- The keys of an object, in order. -/
def objKeys (o : Obj) : List String := o.map Prod.fst

-- ── In-memory cache (app.py lines 46-80) ────────────────────────────────────

/-- One cache entry: `{"data": ..., "stored": time.time(), "expires": time.time() + ttl}`. -/
structure CacheEntry (α : Type) where
  data : α
  stored : ℚ
  expires : ℚ
deriving DecidableEq

/-- The `_cache` dict: key → entry, insertion ordered. -/
abbrev Cache (α : Type) : Type := List (String × CacheEntry α)

/-- Function `cache_get` (app.py lines 50-57): return the stored data iff the entry
exists and `time.time() < entry["expires"]`; no mutation. -/
def cache_get {α : Type} (now : ℚ) (c : Cache α) (key : String) : Option α :=
  match lookupStr c key with
  | some e => if now < e.expires then some e.data else none
  | none => none

/-- State-passing form of `cache_get`: the function only reads the store. -/
def cacheGetS {α : Type} (now : ℚ) (c : Cache α) (key : String) : Option α × Cache α :=
  (cache_get now c key, c)

/-- Function `cache_set` (app.py lines 60-67): unconditional overwrite, records
`stored = time.time()` and `expires = time.time() + ttl`. -/
def cache_set {α : Type} (now : ℚ) (key : String) (data : α) (ttl : ℚ) (c : Cache α) :
    Cache α :=
  pyUpsert c key ⟨data, now, now + ttl⟩

/-- Function `cache_stats` (app.py lines 70-80): snapshot over all entries, fresh or
expired, each mapped to `{"age_seconds": int(now - stored),
"expires_in": max(0, int(expires - now)), "cached_at_utc": isoformat(stored)}`. -/
def cache_stats {α : Type} (now : ℚ) (c : Cache α) : List (String × Obj) :=
  c.map fun kv =>
    (kv.1, [("age_seconds", JVal.jnum (pyTrunc (now - kv.2.stored))),
            ("expires_in", JVal.jnum (max 0 (pyTrunc (kv.2.expires - now)))),
            ("cached_at_utc", JVal.jtime kv.2.stored)])

/-- Table `CACHE_TTL` (app.py lines 29-36). -/
def CACHE_TTL : List (String × ℚ) :=
  [("generation", 600), ("demand", 600), ("price", 600),
   ("imbalance", 600), ("frequency", 60), ("default", 300)]

/-- Python `CACHE_TTL.get(ttl_key, CACHE_TTL["default"])` (app.py line 132). -/
def cacheTTL (ttlKey : String) : ℚ := (lookupStr CACHE_TTL ttlKey).getD 300

-- ── Settlement clock (app.py lines 90-105) ──────────────────────────────────

/-- The dict returned by `current_settlement_period`, with the two ISO
datetime fields represented by their (hour, minute) pair resp. total minutes
since the UTC midnight of `now`'s day (seconds and microseconds are zeroed
by the `replace` calls; `sp_end = sp_start + timedelta(minutes=30)`). -/
structure SPInfo where
  settlement_period : ℕ
  startHour : ℕ
  startMinute : ℕ
  endTotalMin : ℕ
  periods_per_day : ℕ
  next_sp : ℕ
deriving DecidableEq

/-- Function `current_settlement_period` (app.py lines 90-105), as a function of the
current UTC hour and minute. -/
def current_settlement_period (h m : ℕ) : SPInfo :=
  let minutes := h * 60 + m
  let sp := minutes / 30 + 1
  -- sp_start = now.replace(minute=(sp-1) % 2 * 30, second=0, microsecond=0),
  -- then if (sp-1)*30 >= 60 both hour and minute are overwritten:
  let sHour := if (sp - 1) * 30 ≥ 60 then (sp - 1) * 30 / 60 else h
  let sMin := if (sp - 1) * 30 ≥ 60 then (sp - 1) * 30 % 60 else (sp - 1) % 2 * 30
  { settlement_period := sp
    startHour := sHour
    startMinute := sMin
    endTotalMin := sHour * 60 + sMin + 30
    periods_per_day := 48
    next_sp := sp % 48 + 1 }

-- ── Python sorted(), stable (insertion sort matches its stability) ───────────

/-- The ordering used by `sorted(l, key=key)`: ascending in the key. -/
def ascRel {α β : Type} [LinearOrder β] (key : α → β) : α → α → Prop :=
  fun a b => key a ≤ key b

/-- The ordering used by `sorted(l, key=key, reverse=True)`: descending. -/
def descRel {α β : Type} [LinearOrder β] (key : α → β) : α → α → Prop :=
  fun a b => key b ≤ key a

instance {α β : Type} [LinearOrder β] (key : α → β) : DecidableRel (ascRel key) :=
  fun a b => inferInstanceAs (Decidable (key a ≤ key b))

instance {α β : Type} [LinearOrder β] (key : α → β) : DecidableRel (descRel key) :=
  fun a b => inferInstanceAs (Decidable (key b ≤ key a))

instance {α β : Type} [LinearOrder β] (key : α → β) : IsTotal α (ascRel key) :=
  ⟨fun a b => le_total (key a) (key b)⟩

instance {α β : Type} [LinearOrder β] (key : α → β) : IsTotal α (descRel key) :=
  ⟨fun a b => le_total (key b) (key a)⟩

instance {α β : Type} [LinearOrder β] (key : α → β) : IsTrans α (ascRel key) :=
  ⟨fun _ _ _ h1 h2 => le_trans h1 h2⟩

instance {α β : Type} [LinearOrder β] (key : α → β) : IsTrans α (descRel key) :=
  ⟨fun _ _ _ h1 h2 => le_trans h2 h1⟩

/-- Python `sorted(l, key=key)` (stable). -/
def sortAscBy {α β : Type} [LinearOrder β] (key : α → β) (l : List α) : List α :=
  List.insertionSort (ascRel key) l

/-- Python `sorted(l, key=key, reverse=True)` (stable). -/
def sortDescBy {α β : Type} [LinearOrder β] (key : α → β) (l : List α) : List α :=
  List.insertionSort (descRel key) l

-- ── Generation records and fuel mix (app.py lines 193-348) ───────────────────

/-- One record of the `generation/outturn/halfHourly` dataset, with exactly
the keys the backend reads; every key access is via `.get` except
`d["settlementPeriod"]`, so each field is optional. -/
structure GenRecord where
  settlementPeriod : Option ℤ
  fuelType : Option String
  generation : Option ℚ
  quantity : Option ℚ
deriving DecidableEq

/-- Python `d.get("generation", d.get("quantity", 0))`. -/
def outputOf (d : GenRecord) : ℚ := d.generation.getD (d.quantity.getD 0)

/-- The sort key `x.get("generation", 0)` of app.py line 318 — note: no
`quantity` fallback here, unlike `outputOf`. -/
def genSortKey (d : GenRecord) : ℚ := d.generation.getD 0

/-- Python truthiness of `d.get("fuelType")`: `None` and `""` are falsy. -/
def pyTruthyStr : Option String → Bool
  | none => false
  | some st => !st.isEmpty

/-- Table `fuel_labels` (app.py lines 309-315). -/
def fuel_labels : List (String × String) :=
  [("CCGT", "Gas CCGT"), ("OCGT", "Gas OCGT"), ("OIL", "Oil"), ("COAL", "Coal"),
   ("NUCLEAR", "Nuclear"), ("WIND", "Wind"), ("PS", "Pumped Storage"),
   ("NPSHYD", "Hydro"), ("OTHER", "Other"), ("INTFR", "France IC"),
   ("INTIRL", "Ireland IC"), ("INTNED", "Netherlands IC"), ("INTEW", "E-W IC"),
   ("INTNEM", "NEMO IC"), ("BIOMASS", "Biomass"), ("SOLAR", "Solar")]

/-- Python `fuel_labels.get(ft, ft)`. -/
def labelOf (ft : String) : String := (lookupStr fuel_labels ft).getD ft

/-- Python `total = sum(d.get("generation", d.get("quantity", 0)) for d in latest)` —
the sum runs over the full, unfiltered latest-period snapshot. -/
def totalOf (latest : List GenRecord) : ℚ := (latest.map outputOf).sum

/-- One entry of the derived `fuels` list (app.py lines 322-327). -/
structure FuelEntry where
  fuel_type : String
  label : String
  mw : ℤ
  percentage : ℚ
deriving DecidableEq

/-- The entry built for a kept record. -/
def mkFuelEntry (total : ℚ) (d : GenRecord) : FuelEntry :=
  { fuel_type := d.fuelType.getD ""
    label := labelOf (d.fuelType.getD "")
    mw := pyRound (outputOf d)
    percentage := if total = 0 then 0 else round1 ((pyRound (outputOf d) : ℚ) / total * 100) }

/-- The filter `if ft and mw > 0` of app.py line 321. -/
def fuelKeep (d : GenRecord) : Bool :=
  pyTruthyStr d.fuelType && decide (0 < pyRound (outputOf d))

/-- The `fuels` list of app.py lines 317-327: iterate the snapshot sorted
descending by the `generation` key, keep records with truthy fuel type and
positive rounded output. -/
def fuelsList (latest : List GenRecord) : List FuelEntry :=
  (sortDescBy genSortKey latest).filterMap fun d =>
    if fuelKeep d then some (mkFuelEntry (totalOf latest) d) else none

/-- Set `renewable_types` (app.py line 329). -/
def renewable_types : List String := ["WIND", "SOLAR", "NPSHYD", "HYDRO", "BIOMASS"]

/-- Python `low_carbon_types = renewable_types | {"NUCLEAR"}` (app.py line 331). -/
def low_carbon_types : List String := renewable_types ++ ["NUCLEAR"]

/-- Python `renewable_mw = sum(f["mw"] for f in fuels if f["fuel_type"] in renewable_types)`. -/
def renewableMw (latest : List GenRecord) : ℤ :=
  (((fuelsList latest).filter fun f => renewable_types.contains f.fuel_type).map
    FuelEntry.mw).sum

/-- Value `low_carbon_mw` (app.py line 332). -/
def lowCarbonMw (latest : List GenRecord) : ℤ :=
  (((fuelsList latest).filter fun f => low_carbon_types.contains f.fuel_type).map
    FuelEntry.mw).sum

/-- Python `round(renewable_mw / total * 100, 1) if total else 0` (app.py line 339). -/
def renewablePct (latest : List GenRecord) : ℚ :=
  if totalOf latest = 0 then 0 else round1 ((renewableMw latest : ℚ) / totalOf latest * 100)

/-- Python `round(low_carbon_mw / total * 100, 1) if total else 0` (app.py line 341). -/
def lowCarbonPct (latest : List GenRecord) : ℚ :=
  if totalOf latest = 0 then 0 else round1 ((lowCarbonMw latest : ℚ) / totalOf latest * 100)

/-- Python `max(d["settlementPeriod"] for d in data)` — callers guard that `data` is
nonempty and raise before this point if any record lacks the key. -/
def maxSpOf (data : List GenRecord) : ℤ :=
  match data.filterMap GenRecord.settlementPeriod with
  | [] => 0
  | x :: xs => xs.foldl max x

/-- Python `latest = [d for d in data if d["settlementPeriod"] == max_sp]`. -/
def latestRecords (data : List GenRecord) : List GenRecord :=
  data.filter fun d => d.settlementPeriod = some (maxSpOf data)

-- ── Upstream failures (requests exception hierarchy) ─────────────────────────

/-- A Python exception as observed by the handlers: `requests.HTTPError`
(carrying `e.response.status_code`), any other `requests.RequestException`,
or any other `Exception` (e.g. `KeyError` from a malformed record). -/
inductive PyErr : Type where
  | http : ℤ → String → PyErr
  | reqErr : String → PyErr
  | other : String → PyErr
deriving DecidableEq

/-- Python `str(e)`. -/
def errStr : PyErr → String
  | .http _ msg => msg
  | .reqErr msg => msg
  | .other msg => msg

/-- Python `str()` of the `KeyError` raised by `d["settlementPeriod"]`. -/
def spKeyErrMsg : String := "KeyError: settlementPeriod"

-- ── Summary sub-operations (app.py lines 353-463) ────────────────────────────

/-- Python `raw.get("data", [])` of a generation fetch. -/
structure GenRaw where
  data : List GenRecord
deriving DecidableEq

/-- One record of `demand/outturn`, with the keys the backend reads. -/
structure DemandRecord where
  settlementPeriod : Option ℤ
  initialDemandOutturn : Option ℚ
  demand : Option ℚ
deriving DecidableEq

structure DemandRaw where
  data : List DemandRecord
deriving DecidableEq

/-- One record of `balancing/pricing/market-index`. -/
structure PriceRecord where
  settlementPeriod : Option ℤ
  price : Option ℚ
deriving DecidableEq

structure PriceRaw where
  data : List PriceRecord
deriving DecidableEq

/-- One record of `datasets/IMBALNGC`. -/
structure ImbalanceRecord where
  settlementPeriod : Option ℤ
  imbalance : Option ℚ
  indicatedImbalance : Option ℚ
  value : Option ℚ
deriving DecidableEq

structure ImbalanceRaw where
  data : List ImbalanceRecord
deriving DecidableEq

/-- One record of `datasets/FREQ`. -/
structure FreqRecord where
  publishTime : Option String
  frequency : Option ℚ
  value : Option ℚ
deriving DecidableEq

structure FreqRaw where
  data : List FreqRecord
deriving DecidableEq

/-- The dict comprehension
`{d["fuelType"]: round(d.get("generation", d.get("quantity", 0)))
  for d in latest if d.get("fuelType")}` — later duplicates overwrite the
value while keeping the first position, as in a Python dict. -/
def fuelsDictZ (latest : List GenRecord) : List (String × ℤ) :=
  latest.foldl (fun acc d =>
    match d.fuelType with
    | some ft => if ft.isEmpty then acc else pyUpsert acc ft (pyRound (outputOf d))
    | none => acc) []

/-- The generation sub-operation of `summary` (app.py lines 369-391).  Returns
the optional `result["generation"]` object and the optional
`errors["generation"]` message; empty data yields neither. -/
def genBlock (fetch : Except PyErr GenRaw) : Option Obj × Option String :=
  match fetch with
  | .error e => (none, some (errStr e))
  | .ok raw =>
    if raw.data.isEmpty then (none, none)
    else if raw.data.any fun d => d.settlementPeriod.isNone then (none, some spKeyErrMsg)
    else
      let latest := latestRecords raw.data
      let total := totalOf latest
      let fuels := fuelsDictZ latest
      let windMw := (lookupStr fuels "WIND").getD 0
      let solarMw := (lookupStr fuels "SOLAR").getD 0
      let nuclearMw := (lookupStr fuels "NUCLEAR").getD 0
      (some [("total_mw", JVal.jnum (pyRound total)),
             ("fuels", JVal.jobj (fuels.map fun kv => (kv.1, JVal.jnum kv.2))),
             ("wind_mw", JVal.jnum windMw),
             ("solar_mw", JVal.jnum solarMw),
             ("nuclear_mw", JVal.jnum nuclearMw),
             ("wind_pct", JVal.jnum (if total = 0 then 0
               else round1 ((windMw : ℚ) / total * 100))),
             ("solar_pct", JVal.jnum (if total = 0 then 0
               else round1 ((solarMw : ℚ) / total * 100)))],
       none)

/-- Sort key `d["settlementPeriod"]` (guarded: raises before sorting when a
record lacks the key, which the blocks model by the `any isNone` test). -/
def demandSortKey (d : DemandRecord) : ℤ := d.settlementPeriod.getD 0

/-- The demand sub-operation of `summary` (app.py lines 394-407). -/
def demandBlock (fetch : Except PyErr DemandRaw) : Option Obj × Option String :=
  match fetch with
  | .error e => (none, some (errStr e))
  | .ok raw =>
    if raw.data.any fun d => d.settlementPeriod.isNone then (none, some spKeyErrMsg)
    else
      match (sortAscBy demandSortKey raw.data).getLast? with
      | none => (none, none)
      | some latest =>
        (some [("mw", JVal.jnum (latest.initialDemandOutturn.getD (latest.demand.getD 0))),
               ("settlement_period", JVal.jnum (latest.settlementPeriod.getD 0))], none)

def priceSortKey (d : PriceRecord) : ℤ := d.settlementPeriod.getD 0

/-- Python `[d for d in raw.get("data", []) if d.get("price") is not None]`. -/
def priceFiltered (raw : PriceRaw) : List PriceRecord :=
  raw.data.filter fun d => d.price.isSome

/-- The price sub-operation of `summary` (app.py lines 410-423): keep records
with non-null price, sort ascending by settlement period, and report the last
record's price together with its change against the second-to-last record
(the last record itself when fewer than two exist). -/
def priceBlock (fetch : Except PyErr PriceRaw) : Option Obj × Option String :=
  match fetch with
  | .error e => (none, some (errStr e))
  | .ok raw =>
    if (priceFiltered raw).any fun d => d.settlementPeriod.isNone then (none, some spKeyErrMsg)
    else
      let data := sortAscBy priceSortKey (priceFiltered raw)
      match data.getLast? with
      | none => (none, none)
      | some latest =>
        let prev := (data.dropLast.getLast?).getD latest
        (some [("gbp_per_mwh", JVal.jnum (round2 (latest.price.getD 0))),
               ("settlement_period", JVal.jnum (latest.settlementPeriod.getD 0)),
               ("change_gbp", JVal.jnum (round2 (latest.price.getD 0 - prev.price.getD 0)))],
         none)

def imbSortKey (d : ImbalanceRecord) : ℤ := d.settlementPeriod.getD 0

/-- The imbalance sub-operation of `summary` (app.py lines 426-439). -/
def imbalanceBlock (fetch : Except PyErr ImbalanceRaw) : Option Obj × Option String :=
  match fetch with
  | .error e => (none, some (errStr e))
  | .ok raw =>
    if raw.data.any fun d => d.settlementPeriod.isNone then (none, some spKeyErrMsg)
    else
      match (sortAscBy imbSortKey raw.data).getLast? with
      | none => (none, none)
      | some latest =>
        (some [("mw", JVal.jnum (pyRound (latest.imbalance.getD
                 (latest.indicatedImbalance.getD (latest.value.getD 0))))),
               ("settlement_period", JVal.jnum (latest.settlementPeriod.getD 0))], none)

/-- Sort key `d.get("publishTime", "")` — cannot raise. -/
def freqSortKey (d : FreqRecord) : String := d.publishTime.getD ""

/-- The frequency sub-operation of `summary` (app.py lines 442-457). -/
def freqBlock (fetch : Except PyErr FreqRaw) : Option Obj × Option String :=
  match fetch with
  | .error e => (none, some (errStr e))
  | .ok raw =>
    match (sortAscBy freqSortKey raw.data).getLast? with
    | none => (none, none)
    | some latest =>
      let freq := latest.frequency.getD (latest.value.getD 50)
      (some [("hz", JVal.jnum (round3 freq)),
             ("nominal_hz", JVal.jnum 50),
             ("deviation", JVal.jnum (round3 (freq - 50))),
             ("status", JVal.jstr (if |freq - 50| < 1/20 then "normal"
               else if |freq - 50| < 1/5 then "deviation" else "alert")),
             ("published_at", match latest.publishTime with
               | some ps => JVal.jstr ps
               | none => JVal.jnull)], none)

/-- The `current_settlement_period()` dict as a JSON object
(`settlement_date` is the formatted date string; the two period instants are
rendered via `jtime` of the seconds since that day's UTC midnight). -/
def currentSettlementPeriodObj (dateStr : String) (h m : ℕ) : Obj :=
  [("settlement_date", JVal.jstr dateStr),
   ("settlement_period", JVal.jnum (current_settlement_period h m).settlement_period),
   ("period_start_utc", JVal.jtime (((current_settlement_period h m).startHour * 60
      + (current_settlement_period h m).startMinute : ℕ) * 60)),
   ("period_end_utc", JVal.jtime (((current_settlement_period h m).endTotalMin : ℕ) * 60)),
   ("periods_per_day", JVal.jnum 48),
   ("next_sp", JVal.jnum (current_settlement_period h m).next_sp)]

/-- The five independent fetch outcomes consumed by `summary`. -/
structure SummaryFetches where
  gen : Except PyErr GenRaw
  dem : Except PyErr DemandRaw
  pri : Except PyErr PriceRaw
  imb : Except PyErr ImbalanceRaw
  freq : Except PyErr FreqRaw

/-- Python `result[name] = obj` when the sub-operation produced an object. -/
def optField (name : String) : Option Obj → Obj
  | some o => [(name, JVal.jobj o)]
  | none => []

/-- Python `errors[name] = str(e)` when the sub-operation raised. -/
def optErr (name : String) : Option String → Obj
  | some msg => [(name, JVal.jstr msg)]
  | none => []

/-- The `errors` dict accumulated across the five sub-operations, in
program order. -/
def summaryErrors (f : SummaryFetches) : Obj :=
  optErr "generation" (genBlock f.gen).2 ++ optErr "demand" (demandBlock f.dem).2
    ++ optErr "price" (priceBlock f.pri).2 ++ optErr "imbalance" (imbalanceBlock f.imb).2
    ++ optErr "frequency" (freqBlock f.freq).2

/-- The composite `result` dict of `summary` (app.py lines 365-460):
`settlement_period` first, then each successful sub-result in program order,
then `result["_errors"] = errors` only when `errors` is nonempty. -/
def summaryResult (dateStr : String) (h m : ℕ) (f : SummaryFetches) : Obj :=
  [("settlement_period", JVal.jobj (currentSettlementPeriodObj dateStr h m))]
    ++ optField "generation" (genBlock f.gen).1
    ++ optField "demand" (demandBlock f.dem).1
    ++ optField "price" (priceBlock f.pri).1
    ++ optField "imbalance" (imbalanceBlock f.imb).1
    ++ optField "frequency" (freqBlock f.freq).1
    ++ (if (summaryErrors f).isEmpty then [] else [("_errors", JVal.jobj (summaryErrors f))])

/-- Python truthiness of `cached` in `if cached:` — `None` and `{}` are falsy. -/
def truthyCached : Option Obj → Option Obj
  | some o => if o.isEmpty then none else some o
  | none => none

/-- An HTTP response: status code plus JSON body. -/
structure Resp where
  status : ℕ
  body : Obj

/-- The `/api/summary` view (app.py lines 353-463): serve a truthy cached
value as a hit, otherwise compute the composite result, cache it for the
fixed 60-second TTL, and return it annotated as a miss. -/
def summaryHandler (now : ℚ) (c : Cache Obj) (dateStr : String) (h m : ℕ)
    (f : SummaryFetches) : Resp × Cache Obj :=
  match truthyCached (cache_get now c "summary") with
  | some data => (⟨200, pyUpsert data "_cache" (JVal.jstr "hit")⟩, c)
  | none =>
    let result := summaryResult dateStr h m f
    (⟨200, pyUpsert result "_cache" (JVal.jstr "miss")⟩,
     cache_set now "summary" result 60 c)

/-- A concrete run of `summary`: the price fetch is unreachable, the four
other sub-fetches succeed with one record each. -/
def exSummaryFetches : SummaryFetches :=
  { gen := .ok ⟨[⟨some 5, some "WIND", some 100, none⟩]⟩
    dem := .ok ⟨[⟨some 5, some 30000, none⟩]⟩
    pri := .error (.reqErr "Upstream unavailable")
    imb := .ok ⟨[⟨some 5, some 10, none, none⟩]⟩
    freq := .ok ⟨[⟨some "2025-01-01T12:00:00Z", some (5001/100), none⟩]⟩ }

/-- A concrete run of `summary`: like `exSummaryFetches` but the demand fetch
succeeds with an EMPTY data list (missing data). -/
def cexSummaryFetches : SummaryFetches :=
  { gen := .ok ⟨[⟨some 5, some "WIND", some 100, none⟩]⟩
    dem := .ok ⟨[]⟩
    pri := .error (.reqErr "Upstream unavailable")
    imb := .ok ⟨[⟨some 5, some 10, none, none⟩]⟩
    freq := .ok ⟨[⟨some "2025-01-01T12:00:00Z", some (5001/100), none⟩]⟩ }

-- ── Raw-passthrough cache key (app.py lines 494-495) ─────────────────────────

/-- One escaped character of a Python string `repr`: backslashes and the
chosen quote character are escaped.  (The further escapes `repr` applies to
control characters are not modelled.) -/
def escChar (q c : Char) : List Char :=
  if c = '\\' ∨ c = q then ['\\', c] else [c]

/-- The escaped body of a Python string `repr` with quote `q`. -/
def escBody (q : Char) : List Char → List Char
  | [] => []
  | c :: cs => escChar q c ++ escBody q cs

/-- The quote character `repr` picks: single quotes, switching to double
quotes when the string contains a single quote but no double quote. -/
def pyQuote (s : String) : Char :=
  if s.contains '\'' && !(s.contains '"') then '"' else '\''

/-- Python `repr` of a string. -/
def pyReprStr (s : String) : String :=
  String.mk (pyQuote s :: (escBody (pyQuote s) s.data ++ [pyQuote s]))

/-- Inverse of `escBody`-plus-closing-quote, used to show `pyReprStr` is
injective: consume escaped characters until the unescaped closing quote. -/
def unescBody (q : Char) : List Char → Option (List Char)
  | [] => none
  | c :: cs =>
    if c = '\\' then
      match cs with
      | [] => none
      | c2 :: cs2 => (unescBody q cs2).map fun l => c2 :: l
    else if c = q then
      if cs = [] then some [] else none
    else
      (unescBody q cs).map fun l => c :: l

/-- Python tuple comparison on `(name, value)` pairs: lexicographic. -/
def pairLe (p q : String × String) : Prop :=
  p.1 < q.1 ∨ (p.1 = q.1 ∧ p.2 ≤ q.2)

instance : DecidableRel pairLe := fun p q =>
  inferInstanceAs (Decidable (p.1 < q.1 ∨ (p.1 = q.1 ∧ p.2 ≤ q.2)))

instance : IsTotal (String × String) pairLe :=
  ⟨fun p q => by
    rcases lt_trichotomy p.1 q.1 with hlt | heq | hgt
    · exact Or.inl (Or.inl hlt)
    · rcases le_total p.2 q.2 with hv | hv
      · exact Or.inl (Or.inr ⟨heq, hv⟩)
      · exact Or.inr (Or.inr ⟨heq.symm, hv⟩)
    · exact Or.inr (Or.inl hgt)⟩

instance : IsTrans (String × String) pairLe :=
  ⟨fun p q r hpq hqr => by
    rcases hpq with h1 | ⟨e1, v1⟩ <;> rcases hqr with h2 | ⟨e2, v2⟩
    · exact Or.inl (lt_trans h1 h2)
    · exact Or.inl (e2 ▸ h1)
    · exact Or.inl (e1 ▸ h2)
    · exact Or.inr ⟨e1.trans e2, le_trans v1 v2⟩⟩

instance : IsAntisymm (String × String) pairLe :=
  ⟨fun p q hpq hqp => by
    rcases hpq with h1 | ⟨e1, v1⟩ <;> rcases hqp with h2 | ⟨e2, v2⟩
    · exact absurd h2 (lt_asymm h1)
    · exact absurd h1 (e2 ▸ lt_irrefl _)
    · exact absurd h2 (e1 ▸ lt_irrefl _)
    · exact Prod.ext e1 (le_antisymm v1 v2)⟩

/-- Python `sorted(params.items())`: Python sorts the pairs lexicographically. -/
def sortPairs (params : List (String × String)) : List (String × String) :=
  List.insertionSort pairLe params

/-- Python `repr` of one `(name, value)` tuple. -/
def pyReprPair (kv : String × String) : String :=
  "(" ++ pyReprStr kv.1 ++ ", " ++ pyReprStr kv.2 ++ ")"

/-- Python rendering of a list body: items joined by a comma and space. -/
def pyReprPairList : List (String × String) → String
  | [] => ""
  | [kv] => pyReprPair kv
  | kv :: rest => pyReprPair kv ++ ", " ++ pyReprPairList rest

/-- Python `f"raw:{elexon_path}:{sorted(params.items())}"` (app.py line 495). -/
def rawCacheKey (path : String) (params : List (String × String)) : String :=
  "raw:" ++ path ++ ":" ++ ("[" ++ pyReprPairList (sortPairs params) ++ "]")

/-- Python `params = {**(params or {}), "format": "json"}` in `fetch_elexon`
(app.py line 110): the caller-supplied `format` is overridden. -/
def fetchParams (params : List (String × String)) : List (String × String) :=
  pyUpsert params "format" "json"

-- ── Route handlers and error mapping (app.py lines 116-142, 193-227, 285-348,
--    487-506) ─────────────────────────────────────────────────────────────────

/-- Python `{**data, "_cache": st, "_key": key}` of the `proxy_route` wrapper. -/
def addMeta (data : Obj) (st : String) (key : String) : Obj :=
  pyUpsert (pyUpsert data "_cache" (JVal.jstr st)) "_key" (JVal.jstr key)

/-- The `proxy_route` wrapper (app.py lines 116-142): serve a non-`None`
cached value, otherwise fetch; `requests.HTTPError` → 502 `{error, status}`,
other `requests.RequestException` → 503 `{error, detail}`; any other
exception is uncaught and falls through to Flask's 500 handler
(app.py lines 515-517). -/
def proxyRouteHandler (now : ℚ) (c : Cache Obj) (key ttlKey : String)
    (fetch : Except PyErr Obj) : Resp × Cache Obj :=
  match cache_get now c key with
  | some data => (⟨200, addMeta data "hit" key⟩, c)
  | none =>
    match fetch with
    | .ok data =>
      (⟨200, addMeta data "miss" key⟩, cache_set now key data (cacheTTL ttlKey) c)
    | .error (.http st msg) =>
      (⟨502, [("error", JVal.jstr msg), ("status", JVal.jnum st)]⟩, c)
    | .error (.reqErr msg) =>
      (⟨503, [("error", JVal.jstr "Upstream unavailable"), ("detail", JVal.jstr msg)]⟩, c)
    | .error (.other msg) =>
      (⟨500, [("error", JVal.jstr "internal server error"), ("detail", JVal.jstr msg)]⟩, c)

/-- The result dict of `/api/generation/latest` (app.py lines 214-222). -/
def genLatestResult (dateStr : String) (data : List GenRecord) : Obj :=
  [("settlement_date", JVal.jstr dateStr),
   ("settlement_period", JVal.jnum (maxSpOf data)),
   ("total_mw", JVal.jnum (pyRound (totalOf (latestRecords data)))),
   ("fuels", JVal.jobj ((fuelsDictZ (latestRecords data)).map fun kv =>
      (kv.1, JVal.jnum kv.2)))]

/-- The `/api/generation/latest` view (app.py lines 193-227): truthy cache
hit, 404 `{error}` on empty data, and 503 `{error}` for ANY exception — the
blanket `except Exception` catches `HTTPError` too. -/
def genLatestHandler (now : ℚ) (c : Cache Obj) (dateStr : String)
    (fetch : Except PyErr GenRaw) : Resp × Cache Obj :=
  match truthyCached (cache_get now c "generation_latest") with
  | some data => (⟨200, pyUpsert data "_cache" (JVal.jstr "hit")⟩, c)
  | none =>
    match fetch with
    | .error e => (⟨503, [("error", JVal.jstr (errStr e))]⟩, c)
    | .ok raw =>
      if raw.data.isEmpty then (⟨404, [("error", JVal.jstr "No data available")]⟩, c)
      else if raw.data.any fun d => d.settlementPeriod.isNone then
        (⟨503, [("error", JVal.jstr spKeyErrMsg)]⟩, c)
      else
        (⟨200, pyUpsert (genLatestResult dateStr raw.data) "_cache" (JVal.jstr "miss")⟩,
         cache_set now "generation_latest" (genLatestResult dateStr raw.data)
           ((lookupStr CACHE_TTL "generation").getD 0) c)

/-- The result dict of `/api/fuel-mix/latest` (app.py lines 334-343);
`round(renewable_mw)` and `round(low_carbon_mw)` are identities on the
already-integer sums. -/
def fuelMixResult (dateStr : String) (data : List GenRecord) : Obj :=
  [("settlement_date", JVal.jstr dateStr),
   ("settlement_period", JVal.jnum (maxSpOf data)),
   ("total_mw", JVal.jnum (pyRound (totalOf (latestRecords data)))),
   ("renewable_mw", JVal.jnum (renewableMw (latestRecords data))),
   ("renewable_pct", JVal.jnum (renewablePct (latestRecords data))),
   ("low_carbon_mw", JVal.jnum (lowCarbonMw (latestRecords data))),
   ("low_carbon_pct", JVal.jnum (lowCarbonPct (latestRecords data))),
   ("fuels", JVal.jarr ((fuelsList (latestRecords data)).map fun fe =>
      JVal.jobj [("fuel_type", JVal.jstr fe.fuel_type), ("label", JVal.jstr fe.label),
                 ("mw", JVal.jnum fe.mw), ("percentage", JVal.jnum fe.percentage)]))]

/-- The `/api/fuel-mix/latest` view (app.py lines 285-348): truthy cache hit,
404 `{error}` on empty data, 503 `{error}` for any exception. -/
def fuelMixLatestHandler (now : ℚ) (c : Cache Obj) (dateStr : String)
    (fetch : Except PyErr GenRaw) : Resp × Cache Obj :=
  match truthyCached (cache_get now c "fuel_mix_latest") with
  | some data => (⟨200, pyUpsert data "_cache" (JVal.jstr "hit")⟩, c)
  | none =>
    match fetch with
    | .error e => (⟨503, [("error", JVal.jstr (errStr e))]⟩, c)
    | .ok raw =>
      if raw.data.isEmpty then (⟨404, [("error", JVal.jstr "No data")]⟩, c)
      else if raw.data.any fun d => d.settlementPeriod.isNone then
        (⟨503, [("error", JVal.jstr spKeyErrMsg)]⟩, c)
      else
        (⟨200, pyUpsert (fuelMixResult dateStr raw.data) "_cache" (JVal.jstr "miss")⟩,
         cache_set now "fuel_mix_latest" (fuelMixResult dateStr raw.data)
           ((lookupStr CACHE_TTL "generation").getD 0) c)

/-- The `/api/raw/<path>` view (app.py lines 487-506): 5-minute cache keyed by
path plus sorted params; `HTTPError` → 502 `{error}` (no `status` field), any
other exception → 503 `{error}`.  `upstream` abstracts the network: it maps
the path and the (format-overridden) query to a parsed body or a failure. -/
def rawPassthroughHandler (now : ℚ) (c : Cache Obj) (path : String)
    (params : List (String × String))
    (upstream : String → List (String × String) → Except PyErr Obj) : Resp × Cache Obj :=
  match truthyCached (cache_get now c (rawCacheKey path params)) with
  | some data => (⟨200, pyUpsert data "_cache" (JVal.jstr "hit")⟩, c)
  | none =>
    match upstream path (fetchParams params) with
    | .ok data =>
      (⟨200, pyUpsert data "_cache" (JVal.jstr "miss")⟩,
       cache_set now (rawCacheKey path params) data 300 c)
    | .error (.http _ msg) => (⟨502, [("error", JVal.jstr msg)]⟩, c)
    | .error (.reqErr msg) => (⟨503, [("error", JVal.jstr msg)]⟩, c)
    | .error (.other msg) => (⟨503, [("error", JVal.jstr msg)]⟩, c)

-- ── Auxiliary lemmas ─────────────────────────────────────────────────────────

theorem pyFloor_eq (q : ℚ) : pyFloor q = ⌊q⌋ := by
  rw [pyFloor, Rat.floor_def', ← Rat.floor_def]

theorem lookupStr_pyUpsert_self {α : Type} (l : List (String × α)) (k : String) (v : α) :
    lookupStr (pyUpsert l k v) k = some v := by
  induction l with
  | nil => simp [pyUpsert, lookupStr]
  | cons h t ih =>
    obtain ⟨k', w⟩ := h
    by_cases hk : k' = k
    · subst hk; simp [pyUpsert, lookupStr]
    · simp [pyUpsert, lookupStr, hk, ih]

theorem lookupStr_pyUpsert_ne {α : Type} (l : List (String × α)) (k k' : String) (v : α)
    (h : k ≠ k') : lookupStr (pyUpsert l k v) k' = lookupStr l k' := by
  induction l with
  | nil => simp [pyUpsert, lookupStr, h]
  | cons hd t ih =>
    obtain ⟨k₀, w⟩ := hd
    by_cases hk : k₀ = k
    · subst hk; simp [pyUpsert, lookupStr, h]
    · simp [pyUpsert, lookupStr, hk, ih]


theorem lookupStr_cache_stats {α : Type} (now : ℚ) (c : Cache α) (k : String) :
    lookupStr (cache_stats now c) k = (lookupStr c k).map fun e =>
      [("age_seconds", JVal.jnum (pyTrunc (now - e.stored))),
       ("expires_in", JVal.jnum (max 0 (pyTrunc (e.expires - now)))),
       ("cached_at_utc", JVal.jtime e.stored)] := by
  induction c with
  | nil => simp [cache_stats, lookupStr]
  | cons hd t ih =>
    by_cases hk : hd.1 = k
    · simp [cache_stats, lookupStr, hk]
    · simpa [cache_stats, lookupStr, hk] using ih

theorem pyTrunc_nonneg_eq_floor (q : ℚ) (h : 0 ≤ q) : pyTrunc q = ⌊q⌋ := by
  rw [pyTrunc, if_neg (not_lt.mpr h), pyFloor_eq]

theorem eq_none_of_not_isSome {α : Type} {o : Option α} (h : o.isSome ≠ true) : o = none := by
  cases o with
  | none => rfl
  | some v => simp at h

theorem lookupStr_cons_ne {α : Type} (k0 : String) (v : α) (l : List (String × α))
    (k : String) (h : k0 ≠ k) : lookupStr ((k0, v) :: l) k = lookupStr l k := by
  simp [lookupStr, h]

theorem lookupStr_cons_self {α : Type} (k0 : String) (v : α) (l : List (String × α)) :
    lookupStr ((k0, v) :: l) k0 = some v := by
  simp [lookupStr]

theorem lookupStr_optField_append (n k : String) (x : Option Obj) (l : Obj) (h : n ≠ k) :
    lookupStr (optField n x ++ l) k = lookupStr l k := by
  cases x <;> simp [optField, lookupStr, h]

theorem lookupStr_optErr_append (n k : String) (x : Option String) (l : Obj) (h : n ≠ k) :
    lookupStr (optErr n x ++ l) k = lookupStr l k := by
  cases x <;> simp [optErr, lookupStr, h]

theorem lookupStr_optField_append_self (n : String) (o : Obj) (l : Obj) :
    lookupStr (optField n (some o) ++ l) n = some (JVal.jobj o) := by
  simp [optField, lookupStr]

theorem lookupStr_optErr_append_self (n msg : String) (l : Obj) :
    lookupStr (optErr n (some msg) ++ l) n = some (JVal.jstr msg) := by
  simp [optErr, lookupStr]

theorem lookupStr_optErr_self (n msg : String) :
    lookupStr (optErr n (some msg)) n = some (JVal.jstr msg) := by
  simp [optErr, lookupStr]

theorem summaryErrors_isEmpty_iff (f : SummaryFetches) :
    (summaryErrors f).isEmpty = true ↔
      ((genBlock f.gen).2 = none ∧ (demandBlock f.dem).2 = none
        ∧ (priceBlock f.pri).2 = none ∧ (imbalanceBlock f.imb).2 = none
        ∧ (freqBlock f.freq).2 = none) := by
  rcases h1 : (genBlock f.gen).2 with _ | m1 <;>
    rcases h2 : (demandBlock f.dem).2 with _ | m2 <;>
    rcases h3 : (priceBlock f.pri).2 with _ | m3 <;>
    rcases h4 : (imbalanceBlock f.imb).2 with _ | m4 <;>
    rcases h5 : (freqBlock f.freq).2 with _ | m5 <;>
    simp [summaryErrors, optErr, h1, h2, h3, h4, h5]

-- ── Auxiliary lemmas: repr injectivity and one-position sort stability ───────

theorem stringDataAppend (s t : String) : (s ++ t).data = s.data ++ t.data := rfl

theorem stringDataInj {s1 s2 : String} (h : s1.data = s2.data) : s1 = s2 :=
  congrArg String.mk h

theorem stringAppendLeftCancel {s x y : String} (h : s ++ x = s ++ y) : x = y := by
  apply stringDataInj
  have hd := congrArg String.data h
  rw [stringDataAppend, stringDataAppend] at hd
  exact List.append_cancel_left hd

theorem stringAppendRightCancel {x y s : String} (h : x ++ s = y ++ s) : x = y := by
  apply stringDataInj
  have hd := congrArg String.data h
  rw [stringDataAppend, stringDataAppend] at hd
  exact List.append_cancel_right hd

theorem unescBody_escBody (q : Char) (hq : q ≠ '\\') (l : List Char) :
    unescBody q (escBody q l ++ [q]) = some l := by
  induction l with
  | nil =>
    simp [escBody, unescBody, hq]
  | cons c cs ih =>
    by_cases hc : c = '\\' ∨ c = q
    · rw [escBody, escChar, if_pos hc, List.cons_append, List.cons_append]
      simp [unescBody, ih]
    · rw [escBody, escChar, if_neg hc, List.singleton_append]
      push_neg at hc
      rw [unescBody.eq_def]
      simp [hc.1, hc.2, ih]

theorem pyReprStr_quote_ne (s : String) : pyQuote s ≠ '\\' := by
  rw [pyQuote]; split <;> decide

theorem pyReprStr_inj {s1 s2 : String} (h : pyReprStr s1 = pyReprStr s2) : s1 = s2 := by
  have hd : pyQuote s1 :: (escBody (pyQuote s1) s1.data ++ [pyQuote s1])
      = pyQuote s2 :: (escBody (pyQuote s2) s2.data ++ [pyQuote s2]) :=
    congrArg String.data h
  obtain ⟨hq, hbody⟩ := List.cons.inj hd
  have h1 := unescBody_escBody (pyQuote s1) (pyReprStr_quote_ne s1) s1.data
  have h2 := unescBody_escBody (pyQuote s2) (pyReprStr_quote_ne s2) s2.data
  rw [hbody, hq, h2] at h1
  exact stringDataInj (Option.some.inj h1).symm

theorem pyReprPair_snd_inj {k v1 v2 : String}
    (h : pyReprPair (k, v1) = pyReprPair (k, v2)) : v1 = v2 := by
  apply pyReprStr_inj
  apply stringDataInj
  have hd := congrArg String.data h
  rw [pyReprPair, pyReprPair] at hd
  simp only [stringDataAppend, List.append_assoc] at hd
  have h1 := List.append_cancel_left hd
  have h2 := List.append_cancel_left h1
  have h3 := List.append_cancel_left h2
  exact List.append_cancel_right h3

theorem pyReprPairList_cons_cons (kv x : String × String) (xs : List (String × String)) :
    pyReprPairList (kv :: x :: xs) = pyReprPair kv ++ ", " ++ pyReprPairList (x :: xs) := rfl

theorem pyReprPairList_one_diff {a b : String × String}
    (hne : pyReprPair a ≠ pyReprPair b) :
    ∀ (A B : List (String × String)),
      pyReprPairList (A ++ a :: B) ≠ pyReprPairList (A ++ b :: B) := by
  intro A
  induction A with
  | nil =>
    intro B h
    cases B with
    | nil => exact hne h
    | cons x xs =>
      apply hne
      apply stringDataInj
      have hd := congrArg String.data h
      rw [List.nil_append, List.nil_append, pyReprPairList_cons_cons,
        pyReprPairList_cons_cons] at hd
      rw [stringDataAppend, stringDataAppend, stringDataAppend, stringDataAppend] at hd
      exact List.append_cancel_right (List.append_cancel_right hd)
  | cons hd tl ih =>
    intro B h
    obtain ⟨x1, xs1, he1⟩ : ∃ x xs, tl ++ a :: B = x :: xs := by
      cases tl with
      | nil => exact ⟨a, B, rfl⟩
      | cons y ys => exact ⟨y, ys ++ a :: B, rfl⟩
    obtain ⟨x2, xs2, he2⟩ : ∃ x xs, tl ++ b :: B = x :: xs := by
      cases tl with
      | nil => exact ⟨b, B, rfl⟩
      | cons y ys => exact ⟨y, ys ++ b :: B, rfl⟩
    rw [List.cons_append, List.cons_append, he1, he2, pyReprPairList_cons_cons,
      pyReprPairList_cons_cons, ← he1, ← he2] at h
    exact ih B (stringAppendLeftCancel h)

theorem pairLe_iff_of_fst_ne {x p : String × String} (h : x.1 ≠ p.1) :
    pairLe x p ↔ x.1 < p.1 := by
  constructor
  · rintro (hlt | ⟨heq, -⟩)
    · exact hlt
    · exact absurd heq h
  · exact fun hlt => Or.inl hlt

theorem orderedInsert_shape (x p q : String × String) (hxp : x.1 ≠ p.1)
    (hpq : p.1 = q.1) :
    ∀ A B : List (String × String),
      ∃ A2 B2, List.orderedInsert pairLe x (A ++ p :: B) = A2 ++ p :: B2
        ∧ List.orderedInsert pairLe x (A ++ q :: B) = A2 ++ q :: B2 := by
  intro A
  induction A with
  | nil =>
    intro B
    by_cases hle : pairLe x p
    · have hleq : pairLe x q := by
        rw [pairLe_iff_of_fst_ne (hpq ▸ hxp)]
        exact hpq ▸ (pairLe_iff_of_fst_ne hxp).mp hle
      exact ⟨[x], B, by simp [List.orderedInsert, hle], by simp [List.orderedInsert, hleq]⟩
    · have hleq : ¬ pairLe x q := by
        rw [pairLe_iff_of_fst_ne (hpq ▸ hxp)]
        rw [pairLe_iff_of_fst_ne hxp] at hle
        exact hpq ▸ hle
      exact ⟨[], List.orderedInsert pairLe x B,
        by simp [List.orderedInsert, hle], by simp [List.orderedInsert, hleq]⟩
  | cons hd tl ih =>
    intro B
    by_cases hle : pairLe x hd
    · exact ⟨x :: hd :: tl, B, by simp [List.orderedInsert, hle],
        by simp [List.orderedInsert, hle]⟩
    · obtain ⟨A2, B2, h1, h2⟩ := ih B
      exact ⟨hd :: A2, B2, by simp [List.orderedInsert, hle, h1],
        by simp [List.orderedInsert, hle, h2]⟩

theorem orderedInsert_self_shape (p q : String × String) (hpq : p.1 = q.1) :
    ∀ L : List (String × String), (∀ kv ∈ L, kv.1 ≠ p.1) →
      ∃ A B, L = A ++ B ∧ List.orderedInsert pairLe p L = A ++ p :: B
        ∧ List.orderedInsert pairLe q L = A ++ q :: B := by
  intro L
  induction L with
  | nil => exact fun _ => ⟨[], [], rfl, rfl, rfl⟩
  | cons y L' ih =>
    intro hmem
    have hy : y.1 ≠ p.1 := hmem y (List.mem_cons_self y L')
    have hpy : p.1 ≠ y.1 := fun hc => hy hc.symm
    have hqy : q.1 ≠ y.1 := fun hc => hy (hc.symm.trans hpq.symm)
    by_cases hle : pairLe p y
    · have hleq : pairLe q y := by
        rw [pairLe_iff_of_fst_ne hqy, ← hpq]
        exact (pairLe_iff_of_fst_ne hpy).mp hle
      exact ⟨[], y :: L', rfl, by simp [List.orderedInsert, hle],
        by simp [List.orderedInsert, hleq]⟩
    · have hleq : ¬ pairLe q y := by
        rw [pairLe_iff_of_fst_ne hqy, ← hpq]
        exact fun hcon => hle ((pairLe_iff_of_fst_ne hpy).mpr hcon)
      obtain ⟨A, B, hAB, h1, h2⟩ := ih fun kv hkv => hmem kv (List.mem_cons_of_mem y hkv)
      exact ⟨y :: A, B, by rw [hAB]; rfl, by simp [List.orderedInsert, hle, h1],
        by simp [List.orderedInsert, hleq, h2]⟩

theorem insertionSort_one_diff (p q : String × String) (hpq : p.1 = q.1) :
    ∀ (l r : List (String × String)), (∀ kv ∈ l ++ r, kv.1 ≠ p.1) →
      ∃ A B, sortPairs (l ++ p :: r) = A ++ p :: B
        ∧ sortPairs (l ++ q :: r) = A ++ q :: B := by
  intro l
  induction l with
  | nil =>
    intro r hmem
    have hmem' : ∀ kv ∈ List.insertionSort pairLe r, kv.1 ≠ p.1 := fun kv hkv =>
      hmem kv ((List.perm_insertionSort pairLe r).mem_iff.mp hkv)
    obtain ⟨A, B, -, h1, h2⟩ :=
      orderedInsert_self_shape p q hpq (List.insertionSort pairLe r) hmem'
    exact ⟨A, B, h1, h2⟩
  | cons x l' ih =>
    intro r hmem
    have hx : x.1 ≠ p.1 := hmem x (List.mem_append_left _ (List.mem_cons_self x l'))
    obtain ⟨A, B, h1, h2⟩ := ih r fun kv hkv => hmem kv (by
      rcases List.mem_append.mp hkv with hl | hr
      · exact List.mem_append_left _ (List.mem_cons_of_mem x hl)
      · exact List.mem_append_right _ hr)
    obtain ⟨A2, B2, g1, g2⟩ := orderedInsert_shape x p q hx hpq A B
    refine ⟨A2, B2, ?_, ?_⟩
    · rw [List.cons_append, sortPairs, List.insertionSort]
      rw [sortPairs] at h1
      rw [h1]
      exact g1
    · rw [List.cons_append, sortPairs, List.insertionSort]
      rw [sortPairs] at h2
      rw [h2]
      exact g2

theorem pyUpsert_middle {α : Type} (before after : List (String × α)) (k : String)
    (v w : α) (hnf : ∀ kv ∈ before, kv.1 ≠ k) :
    pyUpsert (before ++ (k, v) :: after) k w = before ++ (k, w) :: after := by
  induction before with
  | nil => simp [pyUpsert]
  | cons hd tl ih =>
    obtain ⟨k0, v0⟩ := hd
    have hk0 : k0 ≠ k := hnf (k0, v0) (List.mem_cons_self _ _)
    simp only [List.cons_append, pyUpsert, if_neg hk0]
    exact congrArg (List.cons (k0, v0)) (ih fun kv hkv => hnf kv (List.mem_cons_of_mem _ hkv))

-- ── Claim theorems: cache and clock ──────────────────────────────────────────

/-- C1 — Cache freshness: after `cache_set` records an entry at time `t` with
ttl `ttl`, `cache_get` at time `now` returns the stored value exactly when
`now < t + ttl` (i.e. `now < expires_at`), returning `none` otherwise even
though the entry is never cleared; and `cache_get` is a pure read that leaves
the store untouched. -/
theorem cache_get_freshness {α : Type} (c : Cache α) (k : String) (v : α)
    (ttl t now : ℚ) :
    cache_get now (cache_set t k v ttl c) k = (if now < t + ttl then some v else none)
    ∧ cacheGetS now (cache_set t k v ttl c) k
        = (cache_get now (cache_set t k v ttl c) k, cache_set t k v ttl c) := by
  refine ⟨?_, rfl⟩
  simp [cache_get, cache_set, lookupStr_pyUpsert_self]

/-- C4 — Settlement clock: the settlement period is
`floor(minutes_since_midnight / 30) + 1`, always in `[1, 48]`; `next_sp`
wraps from 48 to 1; the period start is the 30-minute-aligned instant at or
before `now`, and the period end is exactly 30 minutes later; at UTC 00:00:00
the period is 1 with `next_sp` 2, at UTC 23:59:59 it is 48 with `next_sp` 1. -/
theorem settlement_clock_correct (h m s : ℕ) (hh : h < 24) (hm : m < 60) (hs : s < 60) :
    (current_settlement_period h m).settlement_period = (h * 60 + m) / 30 + 1
    ∧ 1 ≤ (current_settlement_period h m).settlement_period
    ∧ (current_settlement_period h m).settlement_period ≤ 48
    ∧ (current_settlement_period h m).next_sp
        = (current_settlement_period h m).settlement_period % 48 + 1
    ∧ ((current_settlement_period h m).settlement_period = 48 →
        (current_settlement_period h m).next_sp = 1)
    ∧ ((current_settlement_period h m).settlement_period < 48 →
        (current_settlement_period h m).next_sp
          = (current_settlement_period h m).settlement_period + 1)
    ∧ ((current_settlement_period h m).startHour * 60
        + (current_settlement_period h m).startMinute) % 30 = 0
    ∧ ((current_settlement_period h m).startHour * 60
        + (current_settlement_period h m).startMinute) * 60 ≤ (h * 60 + m) * 60 + s
    ∧ (h * 60 + m) * 60 + s
        < ((current_settlement_period h m).startHour * 60
            + (current_settlement_period h m).startMinute) * 60 + 1800
    ∧ (current_settlement_period h m).endTotalMin
        = (current_settlement_period h m).startHour * 60
          + (current_settlement_period h m).startMinute + 30
    ∧ (current_settlement_period h m).periods_per_day = 48
    ∧ (h = 0 ∧ m = 0 → (current_settlement_period h m).settlement_period = 1
        ∧ (current_settlement_period h m).next_sp = 2
        ∧ (current_settlement_period h m).startHour = 0
        ∧ (current_settlement_period h m).startMinute = 0
        ∧ (current_settlement_period h m).endTotalMin = 30)
    ∧ (h = 23 ∧ m = 59 → (current_settlement_period h m).settlement_period = 48
        ∧ (current_settlement_period h m).next_sp = 1) := by
  simp only [current_settlement_period]
  split_ifs with hc
  · refine ⟨by trivial, by omega, by omega, by trivial, ?_, ?_, by omega, by omega, by omega,
      by trivial, by trivial, ?_, ?_⟩
    · intro h48; rw [h48]
    · intro hlt; rw [Nat.mod_eq_of_lt hlt]
    · rintro ⟨h0, m0⟩; subst h0; subst m0; exact absurd hc (by decide)
    · rintro ⟨h23, m59⟩; subst h23; subst m59; exact ⟨by decide, by decide⟩
  · refine ⟨by trivial, by omega, by omega, by trivial, ?_, ?_, by omega, by omega, by omega,
      by trivial, by trivial, ?_, ?_⟩
    · intro h48; rw [h48]
    · intro hlt; rw [Nat.mod_eq_of_lt hlt]
    · rintro ⟨h0, m0⟩; subst h0; subst m0; exact ⟨by decide, by decide, by decide, by decide, by decide⟩
    · rintro ⟨h23, m59⟩; subst h23; subst m59; exact absurd (by decide) hc

/-- Witness for C4 at the day's last second, UTC 23:59:59. -/
theorem settlement_clock_correct_witness :
    (current_settlement_period 23 59).settlement_period = 48
    ∧ (current_settlement_period 23 59).next_sp = 1
    ∧ (current_settlement_period 23 59).startHour = 23
    ∧ (current_settlement_period 23 59).startMinute = 30
    ∧ (current_settlement_period 23 59).endTotalMin = 1440 := by
  obtain ⟨-, -, -, -, -, -, -, -, -, -, -, -, hlast⟩ :=
    settlement_clock_correct 23 59 59 (by decide) (by decide) (by decide)
  obtain ⟨h48, h1⟩ := hlast ⟨rfl, rfl⟩
  exact ⟨h48, h1, by decide, by decide, by decide⟩

/-- C5 (amended) — Cache stats: `cache_stats` lists every stored key whether
fresh or expired, mapping each to a record with fields `age_seconds`
(`int(now - stored)`, the floor whenever `stored ≤ now`), `expires_in`
(clamped at 0) and `cached_at_utc`. -/
theorem cache_stats_shape {α : Type} (now : ℚ) (c : Cache α) (k : String)
    (e : CacheEntry α) :
    (cache_stats now c).map Prod.fst = c.map Prod.fst
    ∧ (lookupStr c k = some e →
        lookupStr (cache_stats now c) k =
          some [("age_seconds", JVal.jnum (pyTrunc (now - e.stored))),
                ("expires_in", JVal.jnum (max 0 (pyTrunc (e.expires - now)))),
                ("cached_at_utc", JVal.jtime e.stored)])
    ∧ (e.stored ≤ now → pyTrunc (now - e.stored) = ⌊now - e.stored⌋) := by
  refine ⟨?_, fun hl => ?_, fun hle => pyTrunc_nonneg_eq_floor _ (by linarith)⟩
  · simp [cache_stats]
  · rw [lookupStr_cache_stats, hl]; rfl

/-- Witness for C5 on a store holding a single expired entry. -/
theorem cache_stats_shape_witness :
    (cache_stats 10 [("k", (⟨7, 2, 5⟩ : CacheEntry ℚ))]).map Prod.fst = ["k"]
    ∧ lookupStr (cache_stats 10 [("k", (⟨7, 2, 5⟩ : CacheEntry ℚ))]) "k" =
        some [("age_seconds", JVal.jnum (pyTrunc (10 - 2))),
              ("expires_in", JVal.jnum (max 0 (pyTrunc (5 - 10)))),
              ("cached_at_utc", JVal.jtime 2)]
    ∧ pyTrunc ((10 : ℚ) - 2) = ⌊(10 : ℚ) - 2⌋ := by
  obtain ⟨h1, h2, h3⟩ := cache_stats_shape 10 [("k", (⟨7, 2, 5⟩ : CacheEntry ℚ))] "k" ⟨7, 2, 5⟩
  exact ⟨h1, h2 (by decide), h3 (by decide)⟩

/-- C5 counterexample — the stats record of a concrete (expired, still listed)
entry carries the field names `age_seconds`, `expires_in`, `cached_at_utc`;
it has no `expires_in_seconds` and no `stored_at_utc` field, contrary to the
claimed record shape. -/
theorem cache_stats_fields_cex :
    objKeys ((lookupStr (cache_stats 10 [("k", (⟨7, 2, 5⟩ : CacheEntry ℚ))]) "k").getD [])
      = ["age_seconds", "expires_in", "cached_at_utc"]
    ∧ ((lookupStr ((lookupStr (cache_stats 10 [("k", (⟨7, 2, 5⟩ : CacheEntry ℚ))]) "k").getD [])
        "expires_in_seconds").isNone = true)
    ∧ ((lookupStr ((lookupStr (cache_stats 10 [("k", (⟨7, 2, 5⟩ : CacheEntry ℚ))]) "k").getD [])
        "stored_at_utc").isNone = true)
    ∧ cache_get 10 [("k", (⟨7, 2, 5⟩ : CacheEntry ℚ))] "k" = none := by
  refine ⟨rfl, rfl, rfl, by decide⟩

-- ── Claim theorems: fuel mix ─────────────────────────────────────────────────

theorem filterMap_guard_eq_map_filter {α β : Type} (p : α → Bool) (g : α → β) :
    ∀ l : List α, (l.filterMap fun d => if p d then some (g d) else none)
      = (l.filter p).map g := by
  intro l
  induction l with
  | nil => rfl
  | cons hd t ih =>
    by_cases hp : p hd
    · simp [List.filterMap_cons, List.filter_cons, hp, ih]
    · simp [List.filterMap_cons, List.filter_cons, hp, ih]

theorem pyRound_zero : pyRound 0 = 0 := by decide

/-- C3 (amended) — Fuel-mix derivation: the fuels list contains exactly the
snapshot records with truthy fuel type and positive rounded output; each
carries `percentage = round(mw / total * 100, 1)` with `total` summed over the
full unfiltered snapshot (0 when `total` is 0); the listing follows the
snapshot sorted descending by the raw `generation` key (missing `generation`
sorting as 0 — the `quantity` fallback used for `mw` is not applied to the
sort key). -/
theorem fuel_mix_correct (latest : List GenRecord) :
    (fuelsList latest).Perm
        (((latest.filter fuelKeep).map (mkFuelEntry (totalOf latest))))
    ∧ (∀ e ∈ fuelsList latest, e.percentage
        = if totalOf latest = 0 then 0
          else round1 ((e.mw : ℚ) / totalOf latest * 100))
    ∧ (∀ e ∈ fuelsList latest, 0 < e.mw ∧ e.label = labelOf e.fuel_type)
    ∧ fuelsList latest
        = ((sortDescBy genSortKey latest).filter fuelKeep).map (mkFuelEntry (totalOf latest))
    ∧ List.Sorted (descRel genSortKey) (sortDescBy genSortKey latest) := by
  have hrw : fuelsList latest
      = ((sortDescBy genSortKey latest).filter fuelKeep).map (mkFuelEntry (totalOf latest)) :=
    filterMap_guard_eq_map_filter fuelKeep (mkFuelEntry (totalOf latest)) _
  have hperm : (fuelsList latest).Perm
      ((latest.filter fuelKeep).map (mkFuelEntry (totalOf latest))) := by
    rw [hrw]
    exact ((List.perm_insertionSort (descRel genSortKey) latest).filter fuelKeep).map _
  have hmem : ∀ e ∈ fuelsList latest, ∃ d, fuelKeep d ∧ e = mkFuelEntry (totalOf latest) d := by
    intro e he
    have := hperm.mem_iff.mp he
    obtain ⟨d, hd, hde⟩ := List.mem_map.mp this
    exact ⟨d, (List.mem_filter.mp hd).2, hde.symm⟩
  refine ⟨hperm, fun e he => ?_, fun e he => ?_, hrw,
    List.sorted_insertionSort (descRel genSortKey) latest⟩
  · obtain ⟨d, _, rfl⟩ := hmem e he
    rfl
  · obtain ⟨d, hk, rfl⟩ := hmem e he
    refine ⟨?_, rfl⟩
    have := (Bool.and_eq_true _ _).mp hk
    simpa [mkFuelEntry] using of_decide_eq_true this.2

/-- Witness for C3 on the spec's round-trip example snapshot
`[{WIND,600},{CCGT,400}]` together with a COAL record carrying only a
`quantity` value. -/
theorem fuel_mix_correct_witness :
    fuelsList [⟨some 1, some "WIND", some 600, none⟩, ⟨some 1, some "CCGT", some 400, none⟩]
      = [⟨"WIND", "Wind", 600, 60⟩, ⟨"CCGT", "Gas CCGT", 400, 40⟩]
    ∧ (∀ e ∈ fuelsList [⟨some 1, some "WIND", some 600, none⟩,
        ⟨some 1, some "CCGT", some 400, none⟩],
        e.percentage = if totalOf [⟨some 1, some "WIND", some 600, none⟩,
          ⟨some 1, some "CCGT", some 400, none⟩] = 0 then 0
          else round1 ((e.mw : ℚ) / totalOf [⟨some 1, some "WIND", some 600, none⟩,
            ⟨some 1, some "CCGT", some 400, none⟩] * 100)) := by
  have h := fuel_mix_correct [⟨some 1, some "WIND", some 600, none⟩,
    ⟨some 1, some "CCGT", some 400, none⟩]
  exact ⟨by decide, h.2.1⟩

/-- C3 counterexample — with a record whose output comes from the `quantity`
fallback, the listed entries are NOT in descending order of output: the sort
key ignores `quantity`, so the 500 MW COAL record sorts below the 100 MW WIND
record. -/
theorem fuel_mix_sort_cex :
    (fuelsList [⟨some 1, some "COAL", none, some 500⟩,
        ⟨some 1, some "WIND", some 100, none⟩]).map FuelEntry.mw = [100, 500]
    ∧ ¬ List.Sorted (fun a b : ℤ => b ≤ a)
        ((fuelsList [⟨some 1, some "COAL", none, some 500⟩,
          ⟨some 1, some "WIND", some 100, none⟩]).map FuelEntry.mw) := by
  exact ⟨by decide, by decide⟩

/-- C9 — Zero-total guard: an empty or all-zero snapshot yields total 0, an
empty fuels listing, percentage 0 for every listed entry, and renewable and
low-carbon percentages 0, with no division performed. -/
theorem fuel_mix_zero_total (latest : List GenRecord)
    (h : latest = [] ∨ ∀ d ∈ latest, outputOf d = 0) :
    totalOf latest = 0
    ∧ fuelsList latest = []
    ∧ (∀ e ∈ fuelsList latest, e.percentage = 0)
    ∧ renewablePct latest = 0
    ∧ lowCarbonPct latest = 0 := by
  have hzero : ∀ d ∈ latest, outputOf d = 0 := by
    rcases h with h | h
    · subst h; intro d hd; cases hd
    · exact h
  have htot : totalOf latest = 0 := by
    apply List.sum_eq_zero
    intro x hx
    obtain ⟨d, hd, rfl⟩ := List.mem_map.mp hx
    exact hzero d hd
  have hlist : fuelsList latest = [] := by
    rw [fuelsList]
    apply List.filterMap_eq_nil_iff.mpr
    intro d hd
    have hdl : d ∈ latest := (List.perm_insertionSort (descRel genSortKey) latest).mem_iff.mp hd
    have : fuelKeep d = false := by
      have h0 : pyRound (outputOf d) = 0 := by rw [hzero d hdl]; exact pyRound_zero
      simp [fuelKeep, h0]
    simp [this]
  refine ⟨htot, hlist, ?_, ?_, ?_⟩
  · intro e he; rw [hlist] at he; cases he
  · simp [renewablePct, htot]
  · simp [lowCarbonPct, htot]

-- ── Claim theorems: summary aggregator ───────────────────────────────────────

/-- C2 (amended) — Summary partial-failure contract: the five sub-operations
are isolated; a sub-operation that raises (upstream error, malformed record)
has its message recorded under its own key in the error map and does not
abort the others; a sub-fetch that succeeds with EMPTY data contributes
neither a sub-result nor an error entry.  The result always contains
`settlement_period`, contains each successful sub-result under its own key,
carries the error map under the key `_errors` (not `errors`) exactly when at
least one sub-operation raised, and is cached with the fixed 60-second TTL. -/
theorem summary_partial_failure (dateStr : String) (h m : ℕ) (f : SummaryFetches) :
    lookupStr (summaryResult dateStr h m f) "settlement_period"
      = some (JVal.jobj (currentSettlementPeriodObj dateStr h m))
    ∧ (∀ o, (genBlock f.gen).1 = some o →
        lookupStr (summaryResult dateStr h m f) "generation" = some (JVal.jobj o))
    ∧ (∀ o, (demandBlock f.dem).1 = some o →
        lookupStr (summaryResult dateStr h m f) "demand" = some (JVal.jobj o))
    ∧ (∀ o, (priceBlock f.pri).1 = some o →
        lookupStr (summaryResult dateStr h m f) "price" = some (JVal.jobj o))
    ∧ (∀ o, (imbalanceBlock f.imb).1 = some o →
        lookupStr (summaryResult dateStr h m f) "imbalance" = some (JVal.jobj o))
    ∧ (∀ o, (freqBlock f.freq).1 = some o →
        lookupStr (summaryResult dateStr h m f) "frequency" = some (JVal.jobj o))
    ∧ (∀ msg, (genBlock f.gen).2 = some msg →
        lookupStr (summaryErrors f) "generation" = some (JVal.jstr msg))
    ∧ (∀ msg, (demandBlock f.dem).2 = some msg →
        lookupStr (summaryErrors f) "demand" = some (JVal.jstr msg))
    ∧ (∀ msg, (priceBlock f.pri).2 = some msg →
        lookupStr (summaryErrors f) "price" = some (JVal.jstr msg))
    ∧ (∀ msg, (imbalanceBlock f.imb).2 = some msg →
        lookupStr (summaryErrors f) "imbalance" = some (JVal.jstr msg))
    ∧ (∀ msg, (freqBlock f.freq).2 = some msg →
        lookupStr (summaryErrors f) "frequency" = some (JVal.jstr msg))
    ∧ (summaryErrors f ≠ [] →
        lookupStr (summaryResult dateStr h m f) "_errors"
          = some (JVal.jobj (summaryErrors f)))
    ∧ ((lookupStr (summaryResult dateStr h m f) "_errors").isSome
        ↔ ((genBlock f.gen).2.isSome ∨ (demandBlock f.dem).2.isSome
            ∨ (priceBlock f.pri).2.isSome ∨ (imbalanceBlock f.imb).2.isSome
            ∨ (freqBlock f.freq).2.isSome))
    ∧ (∀ now, (summaryHandler now [] dateStr h m f).2
        = cache_set now "summary" (summaryResult dateStr h m f) 60 []) := by
  have hskip : ∀ k : String, k ≠ "settlement_period" →
      lookupStr (summaryResult dateStr h m f) k
        = lookupStr (optField "generation" (genBlock f.gen).1
            ++ (optField "demand" (demandBlock f.dem).1
            ++ (optField "price" (priceBlock f.pri).1
            ++ (optField "imbalance" (imbalanceBlock f.imb).1
            ++ (optField "frequency" (freqBlock f.freq).1
            ++ (if (summaryErrors f).isEmpty then []
                else [("_errors", JVal.jobj (summaryErrors f))])))))) k := by
    intro k hk
    rw [summaryResult]
    simp only [List.append_assoc, List.singleton_append]
    exact lookupStr_cons_ne _ _ _ k (Ne.symm hk)
  refine ⟨?_, ?_, ?_, ?_, ?_, ?_, ?_, ?_, ?_, ?_, ?_, ?_, ?_, fun now => rfl⟩
  · rw [summaryResult]
    simp only [List.append_assoc, List.singleton_append]
    exact lookupStr_cons_self _ _ _
  · intro o ho
    rw [hskip "generation" (by decide), ho, lookupStr_optField_append_self]
  · intro o ho
    rw [hskip "demand" (by decide),
      lookupStr_optField_append "generation" "demand" _ _ (by decide), ho,
      lookupStr_optField_append_self]
  · intro o ho
    rw [hskip "price" (by decide),
      lookupStr_optField_append "generation" "price" _ _ (by decide),
      lookupStr_optField_append "demand" "price" _ _ (by decide), ho,
      lookupStr_optField_append_self]
  · intro o ho
    rw [hskip "imbalance" (by decide),
      lookupStr_optField_append "generation" "imbalance" _ _ (by decide),
      lookupStr_optField_append "demand" "imbalance" _ _ (by decide),
      lookupStr_optField_append "price" "imbalance" _ _ (by decide), ho,
      lookupStr_optField_append_self]
  · intro o ho
    rw [hskip "frequency" (by decide),
      lookupStr_optField_append "generation" "frequency" _ _ (by decide),
      lookupStr_optField_append "demand" "frequency" _ _ (by decide),
      lookupStr_optField_append "price" "frequency" _ _ (by decide),
      lookupStr_optField_append "imbalance" "frequency" _ _ (by decide), ho,
      lookupStr_optField_append_self]
  · intro msg hmsg
    rw [summaryErrors]
    simp only [List.append_assoc]
    rw [hmsg, lookupStr_optErr_append_self]
  · intro msg hmsg
    rw [summaryErrors]
    simp only [List.append_assoc]
    rw [lookupStr_optErr_append "generation" "demand" _ _ (by decide), hmsg,
      lookupStr_optErr_append_self]
  · intro msg hmsg
    rw [summaryErrors]
    simp only [List.append_assoc]
    rw [lookupStr_optErr_append "generation" "price" _ _ (by decide),
      lookupStr_optErr_append "demand" "price" _ _ (by decide), hmsg,
      lookupStr_optErr_append_self]
  · intro msg hmsg
    rw [summaryErrors]
    simp only [List.append_assoc]
    rw [lookupStr_optErr_append "generation" "imbalance" _ _ (by decide),
      lookupStr_optErr_append "demand" "imbalance" _ _ (by decide),
      lookupStr_optErr_append "price" "imbalance" _ _ (by decide), hmsg,
      lookupStr_optErr_append_self]
  · intro msg hmsg
    rw [summaryErrors]
    simp only [List.append_assoc]
    rw [lookupStr_optErr_append "generation" "frequency" _ _ (by decide),
      lookupStr_optErr_append "demand" "frequency" _ _ (by decide),
      lookupStr_optErr_append "price" "frequency" _ _ (by decide),
      lookupStr_optErr_append "imbalance" "frequency" _ _ (by decide), hmsg,
      lookupStr_optErr_self]
  · intro hne
    have hE : (summaryErrors f).isEmpty = false := by
      rcases hcase : summaryErrors f with _ | ⟨a, t⟩
      · exact absurd hcase hne
      · rfl
    rw [hskip "_errors" (by decide),
      lookupStr_optField_append "generation" "_errors" _ _ (by decide),
      lookupStr_optField_append "demand" "_errors" _ _ (by decide),
      lookupStr_optField_append "price" "_errors" _ _ (by decide),
      lookupStr_optField_append "imbalance" "_errors" _ _ (by decide),
      lookupStr_optField_append "frequency" "_errors" _ _ (by decide),
      hE]
    exact lookupStr_cons_self _ _ _
  · rw [hskip "_errors" (by decide),
      lookupStr_optField_append "generation" "_errors" _ _ (by decide),
      lookupStr_optField_append "demand" "_errors" _ _ (by decide),
      lookupStr_optField_append "price" "_errors" _ _ (by decide),
      lookupStr_optField_append "imbalance" "_errors" _ _ (by decide),
      lookupStr_optField_append "frequency" "_errors" _ _ (by decide)]
    cases hE : (summaryErrors f).isEmpty
    · simp only [Bool.false_eq_true, if_false, lookupStr_cons_self, Option.isSome_some,
        true_iff]
      by_contra hnone
      push_neg at hnone
      obtain ⟨n1, n2, n3, n4, n5⟩ := hnone
      have hall := summaryErrors_isEmpty_iff f |>.mpr
        ⟨eq_none_of_not_isSome n1, eq_none_of_not_isSome n2, eq_none_of_not_isSome n3,
         eq_none_of_not_isSome n4, eq_none_of_not_isSome n5⟩
      rw [hE] at hall
      cases hall
    · obtain ⟨e1, e2, e3, e4, e5⟩ := summaryErrors_isEmpty_iff f |>.mp hE
      simp [e1, e2, e3, e4, e5, lookupStr]

/-- Witness for C2: price unreachable, the other four sub-fetches succeed;
all four sub-results and the `_errors` map (with only a `price` key) appear,
and the result is cached with TTL 60. -/
theorem summary_partial_failure_witness :
    lookupStr (summaryResult "2025-01-01" 12 0 exSummaryFetches) "settlement_period"
      = some (JVal.jobj (currentSettlementPeriodObj "2025-01-01" 12 0))
    ∧ (lookupStr (summaryResult "2025-01-01" 12 0 exSummaryFetches) "generation").isSome = true
    ∧ (lookupStr (summaryResult "2025-01-01" 12 0 exSummaryFetches) "demand").isSome = true
    ∧ (lookupStr (summaryResult "2025-01-01" 12 0 exSummaryFetches) "imbalance").isSome = true
    ∧ (lookupStr (summaryResult "2025-01-01" 12 0 exSummaryFetches) "frequency").isSome = true
    ∧ lookupStr (summaryErrors exSummaryFetches) "price"
        = some (JVal.jstr "Upstream unavailable")
    ∧ lookupStr (summaryResult "2025-01-01" 12 0 exSummaryFetches) "_errors"
        = some (JVal.jobj (summaryErrors exSummaryFetches))
    ∧ (summaryHandler 0 [] "2025-01-01" 12 0 exSummaryFetches).2
        = cache_set 0 "summary" (summaryResult "2025-01-01" 12 0 exSummaryFetches) 60 [] := by
  obtain ⟨h1, -, -, -, -, -, -, -, e3, -, -, hne, -, hcache⟩ :=
    summary_partial_failure "2025-01-01" 12 0 exSummaryFetches
  have hEmp : (summaryErrors exSummaryFetches).isEmpty = false := by decide
  refine ⟨h1, by decide, by decide, by decide, by decide, e3 "Upstream unavailable" rfl,
    hne ?_, hcache 0⟩
  intro hnil
  rw [hnil] at hEmp
  cases hEmp

/-- C2 counterexample — with the price fetch unreachable and the demand fetch
returning EMPTY data, the concrete composite result has no `errors` field
(the map is stored under `_errors`), and the demand sub-operation contributes
neither a `demand` sub-result nor an entry in the error map, contrary to the
claim that missing data is recorded under its own key in an `errors` map. -/
theorem summary_errors_cex :
    (lookupStr (summaryResult "2025-01-01" 12 0 cexSummaryFetches) "errors").isNone = true
    ∧ (lookupStr (summaryResult "2025-01-01" 12 0 cexSummaryFetches) "_errors").isSome = true
    ∧ (lookupStr (summaryResult "2025-01-01" 12 0 cexSummaryFetches) "demand").isNone = true
    ∧ (lookupStr (summaryErrors cexSummaryFetches) "demand").isNone = true
    ∧ (demandBlock cexSummaryFetches.dem).1.isNone = true
    ∧ (demandBlock cexSummaryFetches.dem).2.isNone = true
    ∧ (priceBlock cexSummaryFetches.pri).2.isSome = true := by
  exact ⟨by decide, by decide, by decide, by decide, by decide, by decide, by decide⟩

theorem round2_zero : round2 0 = 0 := by decide

/-- C8 (amended) — Summary price change: with the price records carrying a
non-null price sorted ascending by settlement period, the sub-result's
`change_gbp` equals `round(latest.price - previous.price, 2)` where `latest`
and `previous` are the last two records of that ordering; when only one such
record exists, `previous` is `latest` itself and the change is zero. -/
theorem price_change_correct (raw : PriceRaw)
    (hsp : ∀ d ∈ priceFiltered raw, d.settlementPeriod.isSome) :
    List.Sorted (ascRel priceSortKey) (sortAscBy priceSortKey (priceFiltered raw))
    ∧ (sortAscBy priceSortKey (priceFiltered raw) = [] →
        priceBlock (.ok raw) = (none, none))
    ∧ (∀ l, sortAscBy priceSortKey (priceFiltered raw) = [l] →
        ∃ o, (priceBlock (.ok raw)).1 = some o
          ∧ getNum o "change_gbp" = some 0
          ∧ getNum o "gbp_per_mwh" = some (round2 (l.price.getD 0)))
    ∧ (∀ pre p l, sortAscBy priceSortKey (priceFiltered raw) = pre ++ [p, l] →
        ∃ o, (priceBlock (.ok raw)).1 = some o
          ∧ getNum o "change_gbp" = some (round2 (l.price.getD 0 - p.price.getD 0))
          ∧ getNum o "gbp_per_mwh" = some (round2 (l.price.getD 0))) := by
  have hguard : ((priceFiltered raw).any fun d => d.settlementPeriod.isNone) = false := by
    rw [List.any_eq_false]
    intro d hd
    obtain ⟨v, hv⟩ := Option.isSome_iff_exists.mp (hsp d hd)
    simp [hv]
  refine ⟨List.sorted_insertionSort _ _, fun hnil => ?_, fun l hone => ?_,
    fun pre p l htwo => ?_⟩
  · rw [priceBlock]
    simp only [hguard, Bool.false_eq_true, if_false]
    rw [show sortAscBy priceSortKey (priceFiltered raw) = [] from hnil]
    rfl
  · rw [priceBlock]
    simp only [hguard, Bool.false_eq_true, if_false]
    rw [show sortAscBy priceSortKey (priceFiltered raw) = [l] from hone]
    refine ⟨_, rfl, ?_, rfl⟩
    show some (round2 (l.price.getD 0 - l.price.getD 0)) = some 0
    rw [sub_self, round2_zero]
  · rw [priceBlock]
    simp only [hguard, Bool.false_eq_true, if_false]
    rw [show sortAscBy priceSortKey (priceFiltered raw) = (pre ++ [p]) ++ [l] by
      rw [htwo]; simp]
    rw [List.getLast?_concat, List.dropLast_concat, List.getLast?_concat]
    exact ⟨_, rfl, rfl, rfl⟩

/-- Witness for C8 on two records with prices 10 and 20 at periods 1 and 2. -/
theorem price_change_correct_witness :
    (∀ d ∈ priceFiltered ⟨[⟨some 1, some 10⟩, ⟨some 2, some 20⟩]⟩, d.settlementPeriod.isSome)
    ∧ (∃ o, (priceBlock (.ok (⟨[⟨some 1, some 10⟩, ⟨some 2, some 20⟩]⟩ : PriceRaw))).1 = some o
        ∧ getNum o "change_gbp" = some (round2 ((20 : ℚ) - 10))
        ∧ getNum o "gbp_per_mwh" = some (round2 (20 : ℚ)))
    ∧ round2 ((20 : ℚ) - 10) = 10 := by
  refine ⟨by decide, ?_, by decide⟩
  obtain ⟨-, -, -, hlast⟩ :=
    price_change_correct ⟨[⟨some 1, some 10⟩, ⟨some 2, some 20⟩]⟩ (by decide)
  obtain ⟨o, ho, hch, hgb⟩ := hlast [] ⟨some 1, some 10⟩ ⟨some 2, some 20⟩ (by decide)
  exact ⟨o, ho, hch, hgb⟩

/-- C8 counterexample — with prices 0 then 0.237, the computed change is
`round(0.237 - 0, 2) = 0.24`, not the exact difference 0.237 that the claim
states. -/
theorem price_change_cex :
    ((priceBlock (.ok (⟨[⟨some 1, some 0⟩, ⟨some 2, some (237/1000 : ℚ)⟩]⟩ : PriceRaw))).1.map
        fun o => getNum o "change_gbp") = some (some (6/25))
    ∧ (6/25 : ℚ) ≠ (237/1000 : ℚ) - 0 := by
  exact ⟨by decide, by decide⟩

-- ── Claim theorems: error mapping and raw passthrough ────────────────────────

/-- C6 (amended) — Upstream error status mapping: the `proxy_route` endpoints
map an upstream HTTP failure to 502 with body `{error, status}` and an
unreachable upstream to 503 with `{error, detail}`; the derived endpoints
`generation_latest` and `fuel_mix_latest` map EVERY fetch failure — HTTP
failures included — to 503 with `{error}`, and empty data to 404 with
`{error}`; `raw_passthrough` maps an HTTP failure to 502 with body `{error}`
(without a `status` field) and any other failure to 503 with `{error}`. -/
theorem upstream_error_mapping (now : ℚ) (key ttlKey dateStr path : String)
    (st : ℤ) (msg : String) (params : List (String × String)) :
    proxyRouteHandler now [] key ttlKey (.error (.http st msg))
      = (⟨502, [("error", JVal.jstr msg), ("status", JVal.jnum st)]⟩, [])
    ∧ proxyRouteHandler now [] key ttlKey (.error (.reqErr msg))
      = (⟨503, [("error", JVal.jstr "Upstream unavailable"), ("detail", JVal.jstr msg)]⟩, [])
    ∧ genLatestHandler now [] dateStr (.error (.http st msg))
      = (⟨503, [("error", JVal.jstr msg)]⟩, [])
    ∧ genLatestHandler now [] dateStr (.error (.reqErr msg))
      = (⟨503, [("error", JVal.jstr msg)]⟩, [])
    ∧ genLatestHandler now [] dateStr (.ok ⟨[]⟩)
      = (⟨404, [("error", JVal.jstr "No data available")]⟩, [])
    ∧ fuelMixLatestHandler now [] dateStr (.error (.http st msg))
      = (⟨503, [("error", JVal.jstr msg)]⟩, [])
    ∧ fuelMixLatestHandler now [] dateStr (.ok ⟨[]⟩)
      = (⟨404, [("error", JVal.jstr "No data")]⟩, [])
    ∧ rawPassthroughHandler now [] path params (fun _ _ => .error (.http st msg))
      = (⟨502, [("error", JVal.jstr msg)]⟩, [])
    ∧ objKeys (rawPassthroughHandler now [] path params
        (fun _ _ => .error (.http st msg))).1.body = ["error"]
    ∧ rawPassthroughHandler now [] path params (fun _ _ => .error (.reqErr msg))
      = (⟨503, [("error", JVal.jstr msg)]⟩, []) := by
  exact ⟨rfl, rfl, rfl, rfl, rfl, rfl, rfl, rfl, rfl, rfl⟩

/-- C6 counterexample — for the derived endpoint `/api/generation/latest`, an
upstream HTTP failure (status 500) yields response status 503 with body
`{error}` only — not the claimed 502 with `{error, status}`. -/
theorem upstream_error_mapping_cex :
    (genLatestHandler 0 [] "2025-01-01" (.error (.http 500 "boom"))).1.status = 503
    ∧ ¬ (genLatestHandler 0 [] "2025-01-01" (.error (.http 500 "boom"))).1.status = 502
    ∧ objKeys (genLatestHandler 0 [] "2025-01-01" (.error (.http 500 "boom"))).1.body
        = ["error"] := by
  exact ⟨rfl, by decide, rfl⟩

/-- C7 — Raw-passthrough key determinism: query maps holding the same
(name, value) pairs in any order produce identical key strings, so two such
requests address the same cache entry. -/
theorem raw_key_deterministic (path : String) (p1 p2 : List (String × String))
    (hperm : p1.Perm p2) :
    rawCacheKey path p1 = rawCacheKey path p2
    ∧ ∀ (now : ℚ) (c : Cache Obj),
        cache_get now c (rawCacheKey path p1) = cache_get now c (rawCacheKey path p2) := by
  have hsort : sortPairs p1 = sortPairs p2 :=
    List.eq_of_perm_of_sorted
      (((List.perm_insertionSort pairLe p1).trans hperm).trans
        (List.perm_insertionSort pairLe p2).symm)
      (List.sorted_insertionSort pairLe p1) (List.sorted_insertionSort pairLe p2)
  constructor
  · rw [rawCacheKey, rawCacheKey, hsort]
  · intro now c
    rw [rawCacheKey, rawCacheKey, hsort]

/-- Witness for C7 on the spec's example: the `datasets/BOAL` query in its
two parameter orders. -/
theorem raw_key_deterministic_witness :
    rawCacheKey "datasets/BOAL" [("settlementDate", "2025-02-17"), ("format", "json")]
      = rawCacheKey "datasets/BOAL" [("format", "json"), ("settlementDate", "2025-02-17")] :=
  (raw_key_deterministic "datasets/BOAL" _ _ (List.Perm.swap _ _ _)).1

/-- C10 — `fetch_elexon` always sends `format=json`, overriding any
caller-supplied `format` value; hence two raw-passthrough requests that
differ only in the client-supplied `format` value issue identical upstream
queries yet produce distinct cache keys. -/
theorem format_override (path v1 v2 : String)
    (params before after : List (String × String))
    (hnf : ∀ kv ∈ before ++ after, kv.1 ≠ "format")
    (hne : v1 ≠ v2) :
    lookupStr (fetchParams params) "format" = some "json"
    ∧ fetchParams (before ++ ("format", v1) :: after)
        = fetchParams (before ++ ("format", v2) :: after)
    ∧ rawCacheKey path (before ++ ("format", v1) :: after)
        ≠ rawCacheKey path (before ++ ("format", v2) :: after) := by
  refine ⟨lookupStr_pyUpsert_self params "format" "json", ?_, ?_⟩
  · rw [fetchParams, fetchParams,
      pyUpsert_middle before after "format" v1 "json"
        (fun kv hkv => hnf kv (List.mem_append_left _ hkv)),
      pyUpsert_middle before after "format" v2 "json"
        (fun kv hkv => hnf kv (List.mem_append_left _ hkv))]
  · intro hkey
    obtain ⟨A, B, h1, h2⟩ :=
      insertionSort_one_diff ("format", v1) ("format", v2) rfl before after hnf
    rw [rawCacheKey, rawCacheKey, h1, h2] at hkey
    have hbr := stringAppendLeftCancel hkey
    have hlist := stringAppendLeftCancel (stringAppendRightCancel hbr)
    exact pyReprPairList_one_diff
      (fun hp => hne (pyReprPair_snd_inj hp)) A B hlist

/-- Witness for C10: the `datasets/BOAL` query with `format=json` versus
`format=xml`. -/
theorem format_override_witness :
    lookupStr (fetchParams [("settlementDate", "2025-02-17")]) "format" = some "json"
    ∧ fetchParams [("settlementDate", "2025-02-17"), ("format", "json")]
        = fetchParams [("settlementDate", "2025-02-17"), ("format", "xml")]
    ∧ rawCacheKey "datasets/BOAL" [("settlementDate", "2025-02-17"), ("format", "json")]
        ≠ rawCacheKey "datasets/BOAL" [("settlementDate", "2025-02-17"), ("format", "xml")] := by
  obtain ⟨h1, h2, h3⟩ := format_override "datasets/BOAL" "json" "xml"
    [("settlementDate", "2025-02-17")] [("settlementDate", "2025-02-17")] []
    (by decide) (by decide)
  exact ⟨h1, h2, h3⟩

/-- Witness for C9 on an all-zero one-record snapshot. -/
theorem fuel_mix_zero_total_witness :
    totalOf [⟨some 1, some "WIND", some 0, none⟩] = 0
    ∧ fuelsList [⟨some 1, some "WIND", some 0, none⟩] = []
    ∧ renewablePct [⟨some 1, some "WIND", some 0, none⟩] = 0
    ∧ lowCarbonPct [⟨some 1, some "WIND", some 0, none⟩] = 0 := by
  obtain ⟨h1, h2, _, h4, h5⟩ :=
    fuel_mix_zero_total [⟨some 1, some "WIND", some 0, none⟩] (Or.inr (by decide))
  exact ⟨h1, h2, h4, h5⟩

end App
